import Mathlib

/-!
Verification of the A/B-test analysis and data-generation components of the
`ab-test-online-ads` repository.

The embedding models impression-level records as `Row`, tabular datasets as
`DataFrame` (a list of column names plus typed rows), and the analyzer of
`src/analysis.py` as functions over those datasets.  Numeric columns are
embedded as exact rationals; the p-values produced by the statistical tests
are real numbers, with `Option ℝ` used so that `none` models the IEEE NaN
that numpy's `0.0/0.0` produces in the degenerate cases.

The two cumulative distribution functions evaluated inside the external
statistics libraries (the standard normal CDF used by statsmodels'
`proportions_ztest`, and the Student t CDF used by scipy's `ttest_ind`) are
library code, not repository code; they enter the embedding as parameters
`Phi : ℝ → ℝ` and `Tcdf : ℝ → ℝ → ℝ`, and theorems that need facts about
them assume only their documented CDF properties.
-/

namespace AbTest

/-- One impression record, with the four analysis columns plus the two id
columns produced by the generator.  `clicked` and `converted` are 0/1
indicator columns of the data model; `revenue` is a numeric column. -/
structure Row where
  impression_id : Nat
  user_id : Nat
  variant : String
  clicked : Int
  converted : Int
  revenue : ℚ
  deriving Repr, DecidableEq

/-- A tabular dataset: the list of column names (used by the schema check of
`AbTestAnalyzer.__init__`) together with the typed rows. -/
structure DataFrame where
  columns : List String
  rows : List Row
  deriving Repr, DecidableEq

/-- The four columns required by `AbTestAnalyzer.__init__`. -/
def requiredCols : List String := ["variant", "clicked", "converted", "revenue"]

/-- The required columns absent from the dataset
(`required_cols - set(df.columns)` in `__init__`). -/
def missingCols (df : DataFrame) : List String :=
  requiredCols.filter (fun c => decide (c ∉ df.columns))

/-- The error taxonomy of the analyzer.  The source raises `ValueError` with
four distinct messages; the spec names them `SchemaError`,
`MissingVariantError`, `NoClicksError` and `InvalidArgumentError`. -/
inductive AnalysisError where
  | schemaError (missing : List String)
  | missingVariantError
  | noClicksError
  | invalidArgumentError
  deriving Repr, DecidableEq

/-- The `AbTestAnalyzer` instance: the wrapped dataset and the significance
threshold `alpha`. -/
structure Analyzer where
  df : DataFrame
  alpha : ℚ
  deriving Repr, DecidableEq

/-- `AbTestAnalyzer.__init__`: validate that the four required columns are
present, failing with a `SchemaError` listing the missing names. -/
def mkAnalyzer (df : DataFrame) (alpha : ℚ) : Except AnalysisError Analyzer :=
  if missingCols df = [] then Except.ok ⟨df, alpha⟩
  else Except.error (AnalysisError.schemaError (missingCols df))

/-- The rows of one variant group (`df.groupby("variant")` restricted to the
group with label `v`). -/
def variantRows (rows : List Row) (v : String) : List Row :=
  rows.filter (fun r => r.variant == v)

/-- Whether the label `v` occurs in the `variant` column, i.e. whether
`v ∈ set(group.index)` after grouping by variant. -/
def hasVariant (rows : List Row) (v : String) : Bool :=
  rows.any (fun r => r.variant == v)

/-- The success count of a variant group: `group.loc[v, "sum"]` for the
aggregated success column. -/
def successCount (rows : List Row) (success : Row → Int) (v : String) : Int :=
  ((variantRows rows v).map success).sum

/-- The trial count of a variant group: `group.loc[v, "count"]`. -/
def trialCount (rows : List Row) (v : String) : Nat :=
  (variantRows rows v).length

/-- The observed rate of a variant group, `successes[v] / nobs[v]`. -/
def binaryRate (rows : List Row) (success : Row → Int) (v : String) : ℚ :=
  (successCount rows success v : ℚ) / (trialCount rows v : ℚ)

/-- The mean of a list of rationals (pandas `agg(["mean"])` and the sample
means inside scipy). -/
def qMean (xs : List ℚ) : ℚ := xs.sum / (xs.length : ℚ)

/-- The unbiased sample variance (`ddof=1`) used by scipy's `ttest_ind`;
`none` models the NaN numpy returns when there are fewer than two
observations. -/
def sampleVar (xs : List ℚ) : Option ℚ :=
  if xs.length ≤ 1 then none
  else some ((xs.map (fun x => (x - qMean xs) ^ 2)).sum / ((xs.length : ℚ) - 1))

/-- statsmodels `proportions_ztest` on two samples, two-sided: the pooled
proportion, the variance of the difference, the z statistic, and the p-value
`2 * norm.sf(|z|) = 2 * (1 - Phi |z|)`.  When the variance is zero the float
code divides 0 by 0 and the p-value is NaN, modelled as `none`. -/
noncomputable def proportions_ztest (Phi : ℝ → ℝ) (s0 : Int) (n0 : Nat) (s1 : Int) (n1 : Nat) :
    Option ℝ :=
  let p0 : ℝ := (s0 : ℝ) / (n0 : ℝ)
  let p1 : ℝ := (s1 : ℝ) / (n1 : ℝ)
  let pPool : ℝ := ((s0 + s1 : Int) : ℝ) / ((n0 + n1 : Nat) : ℝ)
  let varDiff : ℝ := pPool * (1 - pPool) * (1 / (n0 : ℝ) + 1 / (n1 : ℝ))
  if varDiff = 0 then none
  else some (2 * (1 - Phi |(p0 - p1) / Real.sqrt varDiff|))

/-- scipy `ttest_ind(..., equal_var=False)` (Welch): sample variances with
`ddof=1`, the Welch-Satterthwaite degrees of freedom, the t statistic and the
two-sided p-value `2 * (1 - Tcdf df |t|)`.  `none` models the NaN produced
when a group has fewer than two observations or both variances vanish. -/
noncomputable def ttest_ind_welch (Tcdf : ℝ → ℝ → ℝ) (xs ys : List ℚ) : Option ℝ :=
  match sampleVar xs, sampleVar ys with
  | some v1, some v2 =>
    let n1 : ℝ := (xs.length : ℝ)
    let n2 : ℝ := (ys.length : ℝ)
    let vn1 : ℝ := (v1 : ℝ) / n1
    let vn2 : ℝ := (v2 : ℝ) / n2
    if vn1 + vn2 = 0 then none
    else
      let dof : ℝ := (vn1 + vn2) ^ 2 / (vn1 ^ 2 / (n1 - 1) + vn2 ^ 2 / (n2 - 1))
      let t : ℝ := ((qMean xs : ℚ) - (qMean ys : ℚ)) / Real.sqrt (vn1 + vn2)
      some (2 * (1 - Tcdf dof |t|))
  | _, _ => none

/-- The float comparison `p_value < alpha` that populates `significant`;
a NaN p-value compares false. -/
def pLess : Option ℝ → ℚ → Prop
  | some p, a => p < (a : ℝ)
  | none, _ => False

/-- The analysis output record. `lift = none` models the `np.nan` lift of a
zero baseline, `p_value = none` a NaN p-value. -/
structure MetricResult where
  metric_name : String
  variant_a : ℚ
  variant_b : ℚ
  lift : Option ℚ
  p_value : Option ℝ
  significant : Prop

/-- `AbTestAnalyzer._binary_ztest`: group by variant, require both "A" and
"B", aggregate successes and trials, run the two-proportion z-test, and
build the `MetricResult` with `lift = (rate_b - rate_a) / rate_a` when
`rate_a > 0` and NaN otherwise. -/
noncomputable def binary_ztest (Phi : ℝ → ℝ) (rows : List Row) (alpha : ℚ)
    (success : Row → Int) (name : String) : Except AnalysisError MetricResult :=
  if hasVariant rows "A" && hasVariant rows "B" then
    let rate_a := binaryRate rows success "A"
    let rate_b := binaryRate rows success "B"
    let p := proportions_ztest Phi (successCount rows success "A") (trialCount rows "A")
      (successCount rows success "B") (trialCount rows "B")
    Except.ok
      { metric_name := name
        variant_a := rate_a
        variant_b := rate_b
        lift := if rate_a > 0 then some ((rate_b - rate_a) / rate_a) else none
        p_value := p
        significant := pLess p alpha }
  else Except.error AnalysisError.missingVariantError

/-- `AbTestAnalyzer.ctr`: the binary z-test on the `clicked` column. -/
noncomputable def Analyzer.ctr (Phi : ℝ → ℝ) (a : Analyzer) :
    Except AnalysisError MetricResult :=
  binary_ztest Phi a.df.rows a.alpha Row.clicked "click_through_rate"

/-- `AbTestAnalyzer.conversion_rate`: per impression it is the binary z-test
on `converted`; per click it first restricts to rows with `clicked == 1`
(failing with `NoClicksError` on an empty restriction), reconstructs an
analyzer on that subset (re-running the schema check) and runs the binary
z-test there; any other denominator is an `InvalidArgumentError`. -/
noncomputable def Analyzer.conversion_rate (Phi : ℝ → ℝ) (a : Analyzer)
    (denominator : String) : Except AnalysisError MetricResult :=
  if denominator = "impressions" then
    binary_ztest Phi a.df.rows a.alpha Row.converted "conversion_rate_per_impression"
  else if denominator = "clicks" then
    let df_clicked : DataFrame :=
      { columns := a.df.columns, rows := a.df.rows.filter (fun r => r.clicked == 1) }
    if df_clicked.rows.isEmpty then Except.error AnalysisError.noClicksError
    else
      (mkAnalyzer df_clicked a.alpha).bind (fun a2 =>
        binary_ztest Phi a2.df.rows a2.alpha Row.converted "conversion_rate_per_click")
  else Except.error AnalysisError.invalidArgumentError

/-- `AbTestAnalyzer.revenue_per_impression`: require both variants, take each
variant's revenue values, run Welch's t-test, and build the `MetricResult`
from the group means with `lift = (mean_b - mean_a) / mean_a` when
`mean_a ≠ 0` and NaN otherwise. -/
noncomputable def Analyzer.revenue_per_impression (Tcdf : ℝ → ℝ → ℝ) (a : Analyzer) :
    Except AnalysisError MetricResult :=
  if hasVariant a.df.rows "A" && hasVariant a.df.rows "B" then
    let revA := (variantRows a.df.rows "A").map Row.revenue
    let revB := (variantRows a.df.rows "B").map Row.revenue
    let mean_a := qMean revA
    let mean_b := qMean revB
    let p := ttest_ind_welch Tcdf revA revB
    Except.ok
      { metric_name := "revenue_per_impression"
        variant_a := mean_a
        variant_b := mean_b
        lift := if mean_a ≠ 0 then some ((mean_b - mean_a) / mean_a) else none
        p_value := p
        significant := pLess p a.alpha }
  else Except.error AnalysisError.missingVariantError

/-! ## The synthetic data generator (`src/data_generation.py`) -/

/-- `AdExperimentConfig`, with the source's default values. -/
structure AdExperimentConfig where
  n_impressions : Nat := 10000
  ctr_a : ℚ := 5 / 100
  ctr_b : ℚ := 6 / 100
  conv_a : ℚ := 1 / 100
  conv_b : ℚ := 12 / 1000
  rev_mean_a : ℚ := 10
  rev_mean_b : ℚ := 11
  rev_std : ℚ := 2
  seed : Option Nat := some 19
  deriving Repr, DecidableEq

/-- The numpy global random generator, embedded as a deterministic state
machine over a state type `σ`: `seedFn` is `np.random.seed`, `choice2` the
index draw behind `np.random.choice` on a two-element list, `rand` a uniform
draw in `[0, 1)`, `normal loc scale` a normal draw, and `randint lo hi` a
draw from `[lo, hi)`. -/
structure Rng (σ : Type) where
  seedFn : Nat → σ
  choice2 : σ → Fin 2 × σ
  rand : σ → ℚ × σ
  normal : ℚ → ℚ → σ → ℚ × σ
  randint : Nat → Nat → σ → Nat × σ

/-- `n` successive draws from the generator (a numpy array request of
`size=n`). -/
def drawN {σ α : Type} (f : σ → α × σ) : Nat → σ → List α × σ
  | 0, s => ([], s)
  | n + 1, s =>
    let x := f s
    let xs := drawN f n x.2
    (x.1 :: xs.1, xs.2)

/-- One draw per parameter value (a numpy array request with an array-valued
parameter, such as `np.random.normal(loc=means, ...)`). -/
def drawEach {σ α β : Type} (f : β → σ → α × σ) : List β → σ → List α × σ
  | [], s => ([], s)
  | b :: bs, s =>
    let x := f b s
    let xs := drawEach f bs x.2
    (x.1 :: xs.1, xs.2)

/-- The six output columns of the generator, in source order. -/
def adColumns : List String :=
  ["impression_id", "user_id", "variant", "clicked", "converted", "revenue"]

/-- Assembling `pd.DataFrame({...})` from the six equal-length column
arrays. -/
def zipRows : List Nat → List Nat → List String → List Int → List Int → List ℚ → List Row
  | i :: is, u :: us, v :: vs, c :: cs, cv :: cvs, r :: rs =>
    ⟨i, u, v, c, cv, r⟩ :: zipRows is us vs cs cvs rs
  | _, _, _, _, _, _ => []

/-- The body of `generate_synthetic_data` after the seeding step: draw
variants, clicks, conversions, revenues (clipped at 0 and zeroed for
non-converted rows) and user ids, in source order, and assemble the
dataset. -/
def generateFromState {σ : Type} (R : Rng σ) (config : AdExperimentConfig) (s : σ) :
    DataFrame × σ :=
  let n := config.n_impressions
  let variantDraw := drawN R.choice2 n s
  let variants := variantDraw.1.map (fun i => if i.val = 0 then "A" else "B")
  let ctrs := variants.map (fun v => if v = "A" then config.ctr_a else config.ctr_b)
  let clickDraw := drawN R.rand n variantDraw.2
  let clicked := List.zipWith (fun u c => if u < c then (1 : Int) else 0) clickDraw.1 ctrs
  let convs := variants.map (fun v => if v = "A" then config.conv_a else config.conv_b)
  let convDraw := drawN R.rand n clickDraw.2
  let converted := List.zipWith (fun u c => if u < c then (1 : Int) else 0) convDraw.1 convs
  let means := variants.map (fun v => if v = "A" then config.rev_mean_a else config.rev_mean_b)
  let revDraw := drawEach (fun m st => R.normal m config.rev_std st) means convDraw.2
  let revClipped := revDraw.1.map (fun x => max 0 x)
  let revenue := List.zipWith (fun cv rv => if cv = 1 then rv else (0 : ℚ)) converted revClipped
  let userDraw := drawN (R.randint 1 (n / 2 + 1)) n revDraw.2
  (⟨adColumns, zipRows (List.range' 1 n) userDraw.1 variants clicked converted revenue⟩,
    userDraw.2)

/-- `generate_synthetic_data`: seed the global generator when a seed is
configured (otherwise continue from the ambient state `s0`), then run the
drawing pipeline. -/
def generate_synthetic_data {σ : Type} (R : Rng σ) (config : AdExperimentConfig) (s0 : σ) :
    DataFrame × σ :=
  generateFromState R config
    (match config.seed with
      | some k => R.seedFn k
      | none => s0)

/-! ## Concrete fixtures used in witnesses and counterexamples -/

/-- An arbitrary instantiation of the normal-CDF parameter, used for
concrete evaluations. -/
noncomputable def halfCdf : ℝ → ℝ := fun _ => 1 / 2

/-- An arbitrary instantiation of the t-CDF parameter, used for concrete
evaluations. -/
noncomputable def halfCdf2 : ℝ → ℝ → ℝ := fun _ _ => 1 / 2

/-- A dataset with both variants and all-zero indicator columns: the pooled
proportion is 0, the z-test variance is 0, and the float code produces a NaN
p-value. -/
def dfDegenerate : DataFrame :=
  { columns := adColumns
    rows := [⟨1, 1, "A", 0, 0, 0⟩, ⟨2, 1, "B", 0, 0, 0⟩] }

/-- A dataset whose only rows belong to variant "A". -/
def dfOnlyA : DataFrame :=
  { columns := adColumns
    rows := [⟨1, 1, "A", 0, 0, 0⟩] }

/-- A small dataset with clicked rows in both variants. -/
def dfClicks : DataFrame :=
  { columns := adColumns
    rows := [⟨1, 1, "A", 1, 0, 0⟩, ⟨2, 1, "A", 1, 1, 5⟩, ⟨3, 2, "B", 1, 1, 10⟩,
             ⟨4, 2, "B", 1, 0, 0⟩] }

/-- A dataset with both variants where only variant "A" has clicked rows. -/
def dfOneSide : DataFrame :=
  { columns := adColumns
    rows := [⟨1, 1, "A", 1, 0, 0⟩, ⟨2, 1, "B", 0, 0, 0⟩] }

/-- A dataset whose header lacks exactly the `revenue` column. -/
def dfMissingRevenue : DataFrame :=
  { columns := ["impression_id", "user_id", "variant", "clicked", "converted"]
    rows := [] }

/-- The spec's worked example: variant A with 20 clicks out of 100
impressions, variant B with 50 out of 100. -/
def exampleDf : DataFrame :=
  { columns := adColumns
    rows := (List.range 100).map (fun i => ⟨i + 1, 1, "A", if i < 20 then 1 else 0, 0, 0⟩) ++
      (List.range 100).map (fun i => ⟨i + 101, 1, "B", if i < 50 then 1 else 0, 0, 0⟩) }

/-- A toy deterministic instantiation of the random-generator interface,
used to evaluate the generator on concrete inputs. -/
def tinyRng : Rng Nat where
  seedFn k := k
  choice2 s := (⟨s % 2, by omega⟩, s + 1)
  rand s := (if s % 2 = 0 then 0 else 1, s + 1)
  normal m _ s := (m, s + 1)
  randint lo _ s := (lo + s % 7, s + 1)

/-- A two-impression configuration with a fixed seed and integer-valued
rates, convenient for concrete evaluation. -/
def tinyConfig : AdExperimentConfig :=
  { n_impressions := 2, ctr_a := 1, ctr_b := 0, conv_a := 1, conv_b := 0,
    rev_mean_a := 10, rev_mean_b := 11, rev_std := 2, seed := some 3 }

/-! ## Basic lemmas about grouping and rates -/

theorem hasVariant_iff {rows : List Row} {v : String} :
    hasVariant rows v = true ↔ ∃ r ∈ rows, r.variant = v := by
  simp [hasVariant]

theorem mem_variantRows {rows : List Row} {v : String} {r : Row} :
    r ∈ variantRows rows v ↔ r ∈ rows ∧ r.variant = v := by
  simp [variantRows]

theorem trialCount_pos {rows : List Row} {v : String} (h : hasVariant rows v = true) :
    0 < trialCount rows v := by
  obtain ⟨r, hr, hv⟩ := hasVariant_iff.mp h
  have hmem : r ∈ variantRows rows v := mem_variantRows.mpr ⟨hr, hv⟩
  exact List.length_pos.mpr (List.ne_nil_of_mem hmem)

theorem sum_indicator_bounds (f : Row → Int) :
    ∀ l : List Row, (∀ r ∈ l, f r = 0 ∨ f r = 1) →
      0 ≤ (l.map f).sum ∧ (l.map f).sum ≤ (l.length : Int) := by
  intro l
  induction l with
  | nil => simp
  | cons a t ih =>
    intro h
    have ha := h a (by simp)
    obtain ⟨ht1, ht2⟩ := ih (fun r hr => h r (by simp [hr]))
    simp only [List.map_cons, List.sum_cons, List.length_cons]
    rcases ha with ha | ha <;> rw [ha] <;> constructor <;> omega

theorem binaryRate_bounds {rows : List Row} {v : String} (success : Row → Int)
    (hv : hasVariant rows v = true)
    (hbin : ∀ r ∈ rows, success r = 0 ∨ success r = 1) :
    0 ≤ binaryRate rows success v ∧ binaryRate rows success v ≤ 1 := by
  have hpos := trialCount_pos hv
  have hb := sum_indicator_bounds success (variantRows rows v)
    (fun r hr => hbin r (mem_variantRows.mp hr).1)
  unfold binaryRate
  constructor
  · apply div_nonneg
    · exact_mod_cast hb.1
    · positivity
  · rw [div_le_one (by exact_mod_cast hpos)]
    exact_mod_cast hb.2

/-! ## Unfolding lemmas for the analyzer operations -/

theorem binary_ztest_eq_ok (Phi : ℝ → ℝ) (rows : List Row) (alpha : ℚ)
    (success : Row → Int) (name : String)
    (hA : hasVariant rows "A" = true) (hB : hasVariant rows "B" = true) :
    binary_ztest Phi rows alpha success name = Except.ok
      { metric_name := name
        variant_a := binaryRate rows success "A"
        variant_b := binaryRate rows success "B"
        lift :=
          if binaryRate rows success "A" > 0 then
            some ((binaryRate rows success "B" - binaryRate rows success "A") /
              binaryRate rows success "A")
          else none
        p_value := proportions_ztest Phi (successCount rows success "A") (trialCount rows "A")
          (successCount rows success "B") (trialCount rows "B")
        significant := pLess
          (proportions_ztest Phi (successCount rows success "A") (trialCount rows "A")
            (successCount rows success "B") (trialCount rows "B")) alpha } := by
  simp [binary_ztest, hA, hB]

theorem binary_ztest_eq_error (Phi : ℝ → ℝ) (rows : List Row) (alpha : ℚ)
    (success : Row → Int) (name : String)
    (h : hasVariant rows "A" = false ∨ hasVariant rows "B" = false) :
    binary_ztest Phi rows alpha success name =
      Except.error AnalysisError.missingVariantError := by
  rcases h with h | h <;> simp [binary_ztest, h]

theorem revenue_eq_ok (Tcdf : ℝ → ℝ → ℝ) (a : Analyzer)
    (hA : hasVariant a.df.rows "A" = true) (hB : hasVariant a.df.rows "B" = true) :
    a.revenue_per_impression Tcdf = Except.ok
      { metric_name := "revenue_per_impression"
        variant_a := qMean ((variantRows a.df.rows "A").map Row.revenue)
        variant_b := qMean ((variantRows a.df.rows "B").map Row.revenue)
        lift :=
          if qMean ((variantRows a.df.rows "A").map Row.revenue) ≠ 0 then
            some ((qMean ((variantRows a.df.rows "B").map Row.revenue) -
                qMean ((variantRows a.df.rows "A").map Row.revenue)) /
              qMean ((variantRows a.df.rows "A").map Row.revenue))
          else none
        p_value := ttest_ind_welch Tcdf ((variantRows a.df.rows "A").map Row.revenue)
          ((variantRows a.df.rows "B").map Row.revenue)
        significant := pLess
          (ttest_ind_welch Tcdf ((variantRows a.df.rows "A").map Row.revenue)
            ((variantRows a.df.rows "B").map Row.revenue)) a.alpha } := by
  simp [Analyzer.revenue_per_impression, hA, hB]

/-! ## Claim theorems for the analyzer -/

/-- Claim C1: on every dataset containing both variant labels "A" and "B"
(with 0/1 indicator columns as the data model requires), `ctr()` and
`conversion_rate("impressions")` return `variant_a` and `variant_b` as the
exact ratios of success counts to trial counts of the respective variant
group, both within [0, 1], and the lift is the exact relative difference
`(rate_b - rate_a) / rate_a` of those rates (whenever the baseline rate is
positive, so that the ratio denotes a number rather than NaN). -/
theorem claim_c1 (Phi : ℝ → ℝ) (a : Analyzer)
    (hA : hasVariant a.df.rows "A" = true) (hB : hasVariant a.df.rows "B" = true)
    (hbinC : ∀ r ∈ a.df.rows, r.clicked = 0 ∨ r.clicked = 1)
    (hbinV : ∀ r ∈ a.df.rows, r.converted = 0 ∨ r.converted = 1) :
    (∃ res, a.ctr Phi = Except.ok res ∧
      res.variant_a =
        (successCount a.df.rows Row.clicked "A" : ℚ) / (trialCount a.df.rows "A" : ℚ) ∧
      res.variant_b =
        (successCount a.df.rows Row.clicked "B" : ℚ) / (trialCount a.df.rows "B" : ℚ) ∧
      0 ≤ res.variant_a ∧ res.variant_a ≤ 1 ∧ 0 ≤ res.variant_b ∧ res.variant_b ≤ 1 ∧
      (0 < res.variant_a →
        res.lift = some ((res.variant_b - res.variant_a) / res.variant_a))) ∧
    (∃ res, a.conversion_rate Phi "impressions" = Except.ok res ∧
      res.variant_a =
        (successCount a.df.rows Row.converted "A" : ℚ) / (trialCount a.df.rows "A" : ℚ) ∧
      res.variant_b =
        (successCount a.df.rows Row.converted "B" : ℚ) / (trialCount a.df.rows "B" : ℚ) ∧
      0 ≤ res.variant_a ∧ res.variant_a ≤ 1 ∧ 0 ≤ res.variant_b ∧ res.variant_b ≤ 1 ∧
      (0 < res.variant_a →
        res.lift = some ((res.variant_b - res.variant_a) / res.variant_a))) := by
  constructor
  · refine ⟨_, binary_ztest_eq_ok Phi a.df.rows a.alpha Row.clicked "click_through_rate" hA hB,
      rfl, rfl, ?_, ?_, ?_, ?_, ?_⟩
    · exact (binaryRate_bounds Row.clicked hA hbinC).1
    · exact (binaryRate_bounds Row.clicked hA hbinC).2
    · exact (binaryRate_bounds Row.clicked hB hbinC).1
    · exact (binaryRate_bounds Row.clicked hB hbinC).2
    · intro hpos
      simp only [gt_iff_lt, hpos, if_pos]
  · refine ⟨_, by
      simpa [Analyzer.conversion_rate] using
        binary_ztest_eq_ok Phi a.df.rows a.alpha Row.converted
          "conversion_rate_per_impression" hA hB,
      rfl, rfl, ?_, ?_, ?_, ?_, ?_⟩
    · exact (binaryRate_bounds Row.converted hA hbinV).1
    · exact (binaryRate_bounds Row.converted hA hbinV).2
    · exact (binaryRate_bounds Row.converted hB hbinV).1
    · exact (binaryRate_bounds Row.converted hB hbinV).2
    · intro hpos
      simp only [gt_iff_lt, hpos, if_pos]

/-- Claim C2: whenever at least one of the variant labels "A", "B" is absent
from the dataset, `ctr()`, `conversion_rate("impressions")` and
`revenue_per_impression()` all fail with the missing-variant error. -/
theorem claim_c2 (Phi : ℝ → ℝ) (Tcdf : ℝ → ℝ → ℝ) (a : Analyzer)
    (h : hasVariant a.df.rows "A" = false ∨ hasVariant a.df.rows "B" = false) :
    a.ctr Phi = Except.error AnalysisError.missingVariantError ∧
    a.conversion_rate Phi "impressions" = Except.error AnalysisError.missingVariantError ∧
    a.revenue_per_impression Tcdf = Except.error AnalysisError.missingVariantError := by
  refine ⟨binary_ztest_eq_error _ _ _ _ _ h, ?_, ?_⟩
  · simpa [Analyzer.conversion_rate] using binary_ztest_eq_error Phi a.df.rows a.alpha
      Row.converted "conversion_rate_per_impression" h
  · rcases h with h | h <;> simp [Analyzer.revenue_per_impression, h]

/-- Claim C3: constructing the analyzer on a dataset missing at least one
required column fails with a schema error listing exactly the missing
required column names; missing only `revenue` yields exactly
`SchemaError ["revenue"]`; and construction succeeds when all four required
columns are present. -/
theorem claim_c3 (df : DataFrame) (alpha : ℚ) :
    ((∃ c ∈ requiredCols, c ∉ df.columns) →
      ∃ m, mkAnalyzer df alpha = Except.error (AnalysisError.schemaError m) ∧
        ∀ c, c ∈ m ↔ (c ∈ requiredCols ∧ c ∉ df.columns)) ∧
    (("revenue" ∉ df.columns ∧ ∀ c ∈ requiredCols, c ≠ "revenue" → c ∈ df.columns) →
      mkAnalyzer df alpha = Except.error (AnalysisError.schemaError ["revenue"])) ∧
    ((∀ c ∈ requiredCols, c ∈ df.columns) → mkAnalyzer df alpha = Except.ok ⟨df, alpha⟩) := by
  refine ⟨?_, ?_, ?_⟩
  · rintro ⟨c, hc, hnotin⟩
    have hne : missingCols df ≠ [] := by
      intro hnil
      have := List.filter_eq_nil_iff.mp hnil c hc
      simp [hnotin] at this
    refine ⟨missingCols df, by simp [mkAnalyzer, hne], ?_⟩
    intro x
    simp [missingCols, List.mem_filter]
  · rintro ⟨hrev, hothers⟩
    have h1 : "variant" ∈ df.columns := hothers _ (by simp [requiredCols]) (by decide)
    have h2 : "clicked" ∈ df.columns := hothers _ (by simp [requiredCols]) (by decide)
    have h3 : "converted" ∈ df.columns := hothers _ (by simp [requiredCols]) (by decide)
    have hmiss : missingCols df = ["revenue"] := by
      simp [missingCols, requiredCols, List.filter, h1, h2, h3, hrev]
    simp [mkAnalyzer, hmiss]
  · intro h
    have hmiss : missingCols df = [] := by
      apply List.filter_eq_nil_iff.mpr
      intro c hc
      simp [h c hc]
    simp [mkAnalyzer, hmiss]

theorem conversion_rate_clicks_empty (Phi : ℝ → ℝ) (a : Analyzer)
    (h : a.df.rows.filter (fun r => r.clicked == 1) = []) :
    a.conversion_rate Phi "clicks" = Except.error AnalysisError.noClicksError := by
  simp [Analyzer.conversion_rate, h]

theorem conversion_rate_clicks_nonempty (Phi : ℝ → ℝ) (a : Analyzer)
    (hschema : missingCols a.df = [])
    (hne : a.df.rows.filter (fun r => r.clicked == 1) ≠ []) :
    a.conversion_rate Phi "clicks" =
      binary_ztest Phi (a.df.rows.filter (fun r => r.clicked == 1)) a.alpha Row.converted
        "conversion_rate_per_click" := by
  have hmk : mkAnalyzer ⟨a.df.columns, a.df.rows.filter (fun r => r.clicked == 1)⟩ a.alpha =
      Except.ok ⟨⟨a.df.columns, a.df.rows.filter (fun r => r.clicked == 1)⟩, a.alpha⟩ := by
    have : missingCols ⟨a.df.columns, a.df.rows.filter (fun r => r.clicked == 1)⟩ =
        missingCols a.df := rfl
    simp [mkAnalyzer, this, hschema]
  simp only [Analyzer.conversion_rate, hne, hmk]
  simp [List.isEmpty_iff, hne, Except.bind]

/-- Claim C6: `conversion_rate("clicks")` fails with the no-clicks error
exactly when no row has `clicked == 1`; otherwise it applies the binary-rate
procedure to the `converted` column of the clicked-row subset. -/
theorem claim_c6 (Phi : ℝ → ℝ) (a : Analyzer) (hschema : missingCols a.df = []) :
    (a.df.rows.filter (fun r => r.clicked == 1) = [] →
      a.conversion_rate Phi "clicks" = Except.error AnalysisError.noClicksError) ∧
    (a.df.rows.filter (fun r => r.clicked == 1) ≠ [] →
      a.conversion_rate Phi "clicks" =
        binary_ztest Phi (a.df.rows.filter (fun r => r.clicked == 1)) a.alpha Row.converted
          "conversion_rate_per_click") :=
  ⟨conversion_rate_clicks_empty Phi a, conversion_rate_clicks_nonempty Phi a hschema⟩

/-- Claim C10: when the full dataset has both variants and a nonempty set of
clicked rows, but every clicked row belongs to one single variant,
`conversion_rate("clicks")` fails with the missing-variant error: the
both-variants check is re-run on the clicked-only subset. -/
theorem claim_c10 (Phi : ℝ → ℝ) (a : Analyzer) (hschema : missingCols a.df = [])
    (hA : hasVariant a.df.rows "A" = true) (hB : hasVariant a.df.rows "B" = true)
    (hne : a.df.rows.filter (fun r => r.clicked == 1) ≠ []) (v : String)
    (hv : ∀ r ∈ a.df.rows.filter (fun r => r.clicked == 1), r.variant = v) :
    a.conversion_rate Phi "clicks" = Except.error AnalysisError.missingVariantError := by
  rw [conversion_rate_clicks_nonempty Phi a hschema hne]
  apply binary_ztest_eq_error
  by_contra hcon
  push_neg at hcon
  obtain ⟨hA2, hB2⟩ := hcon
  rw [Bool.ne_false_iff] at hA2 hB2
  obtain ⟨rA, hrA, hvA⟩ := hasVariant_iff.mp hA2
  obtain ⟨rB, hrB, hvB⟩ := hasVariant_iff.mp hB2
  have : ("A" : String) = "B" := by rw [← hvA, hv rA hrA, ← hv rB hrB, hvB]
  simp at this

/-! ## Bounds on the two-sided p-values -/

theorem sampleVar_some {xs : List ℚ} {v : ℚ} (h : sampleVar xs = some v) :
    2 ≤ xs.length ∧ 0 ≤ v := by
  simp only [sampleVar] at h
  split at h
  · exact absurd h (by simp)
  · next hlen =>
    rw [Option.some.injEq] at h
    push_neg at hlen
    refine ⟨by omega, ?_⟩
    rw [← h]
    apply div_nonneg
    · apply List.sum_nonneg
      intro x hx
      rw [List.mem_map] at hx
      obtain ⟨y, _, rfl⟩ := hx
      exact sq_nonneg _
    · have : (2 : ℚ) ≤ (xs.length : ℚ) := by exact_mod_cast hlen
      linarith

theorem proportions_ztest_bounds {Phi : ℝ → ℝ} (hPhi1 : ∀ x, Phi x ≤ 1)
    (hPhi2 : ∀ x, 0 ≤ x → 1 / 2 ≤ Phi x) {s0 : Int} {n0 : Nat} {s1 : Int} {n1 : Nat} {p : ℝ}
    (h : proportions_ztest Phi s0 n0 s1 n1 = some p) : 0 ≤ p ∧ p ≤ 1 := by
  simp only [proportions_ztest] at h
  split at h
  · exact absurd h (by simp)
  · rw [Option.some.injEq] at h
    rw [← h]
    have h1 := hPhi1 |((s0 : ℝ) / (n0 : ℝ) - (s1 : ℝ) / (n1 : ℝ)) /
      Real.sqrt (((s0 + s1 : Int) : ℝ) / ((n0 + n1 : Nat) : ℝ) *
        (1 - ((s0 + s1 : Int) : ℝ) / ((n0 + n1 : Nat) : ℝ)) * (1 / (n0 : ℝ) + 1 / (n1 : ℝ)))|
    have h2 := hPhi2 _ (abs_nonneg (((s0 : ℝ) / (n0 : ℝ) - (s1 : ℝ) / (n1 : ℝ)) /
      Real.sqrt (((s0 + s1 : Int) : ℝ) / ((n0 + n1 : Nat) : ℝ) *
        (1 - ((s0 + s1 : Int) : ℝ) / ((n0 + n1 : Nat) : ℝ)) * (1 / (n0 : ℝ) + 1 / (n1 : ℝ)))))
    constructor <;> linarith

theorem ttest_ind_welch_bounds {Tcdf : ℝ → ℝ → ℝ}
    (hT1 : ∀ d x, 0 < d → Tcdf d x ≤ 1) (hT2 : ∀ d x, 0 < d → 0 ≤ x → 1 / 2 ≤ Tcdf d x)
    {xs ys : List ℚ} {p : ℝ} (h : ttest_ind_welch Tcdf xs ys = some p) : 0 ≤ p ∧ p ≤ 1 := by
  simp only [ttest_ind_welch] at h
  split at h
  case _ v1 v2 hv1 hv2 =>
    obtain ⟨hlen1, hv1nn⟩ := sampleVar_some hv1
    obtain ⟨hlen2, hv2nn⟩ := sampleVar_some hv2
    split at h
    · exact absurd h (by simp)
    · next hsum =>
      rw [Option.some.injEq] at h
      have hn1 : (0 : ℝ) < (xs.length : ℝ) := by
        have : 0 < xs.length := by omega
        exact_mod_cast this
      have hn2 : (0 : ℝ) < (ys.length : ℝ) := by
        have : 0 < ys.length := by omega
        exact_mod_cast this
      have hm1 : (1 : ℝ) ≤ (xs.length : ℝ) := by exact_mod_cast Nat.one_le_of_lt hlen1
      have hm2 : (1 : ℝ) ≤ (ys.length : ℝ) := by exact_mod_cast Nat.one_le_of_lt hlen2
      have hvn1 : (0 : ℝ) ≤ (v1 : ℝ) / (xs.length : ℝ) := by
        apply div_nonneg _ hn1.le
        exact_mod_cast hv1nn
      have hvn2 : (0 : ℝ) ≤ (v2 : ℝ) / (ys.length : ℝ) := by
        apply div_nonneg _ hn2.le
        exact_mod_cast hv2nn
      have hpos : (0 : ℝ) < (v1 : ℝ) / (xs.length : ℝ) + (v2 : ℝ) / (ys.length : ℝ) :=
        lt_of_le_of_ne (by linarith) (fun hh => hsum hh.symm)
      have hdenpos : (0 : ℝ) <
          ((v1 : ℝ) / (xs.length : ℝ)) ^ 2 / ((xs.length : ℝ) - 1) +
            ((v2 : ℝ) / (ys.length : ℝ)) ^ 2 / ((ys.length : ℝ) - 1) := by
        have hge1 : (2 : ℝ) ≤ (xs.length : ℝ) := by exact_mod_cast hlen1
        have hge2 : (2 : ℝ) ≤ (ys.length : ℝ) := by exact_mod_cast hlen2
        have e1 : (0 : ℝ) ≤ ((v1 : ℝ) / (xs.length : ℝ)) ^ 2 / ((xs.length : ℝ) - 1) := by
          apply div_nonneg (sq_nonneg _); linarith
        have e2 : (0 : ℝ) ≤ ((v2 : ℝ) / (ys.length : ℝ)) ^ 2 / ((ys.length : ℝ) - 1) := by
          apply div_nonneg (sq_nonneg _); linarith
        rcases eq_or_lt_of_le hvn1 with h0 | hlt
        · have hlt2 : (0 : ℝ) < (v2 : ℝ) / (ys.length : ℝ) := by
            rw [← h0] at hpos; linarith
          have : (0 : ℝ) < ((v2 : ℝ) / (ys.length : ℝ)) ^ 2 / ((ys.length : ℝ) - 1) := by
            apply div_pos (by positivity); linarith
          linarith
        · have : (0 : ℝ) < ((v1 : ℝ) / (xs.length : ℝ)) ^ 2 / ((xs.length : ℝ) - 1) := by
            apply div_pos (by positivity); linarith
          linarith
      have hdof : (0 : ℝ) <
          ((v1 : ℝ) / (xs.length : ℝ) + (v2 : ℝ) / (ys.length : ℝ)) ^ 2 /
            (((v1 : ℝ) / (xs.length : ℝ)) ^ 2 / ((xs.length : ℝ) - 1) +
              ((v2 : ℝ) / (ys.length : ℝ)) ^ 2 / ((ys.length : ℝ) - 1)) :=
        div_pos (by positivity) hdenpos
      rw [← h]
      have hb1 := hT1 _ (|(((qMean xs : ℚ) : ℝ) - ((qMean ys : ℚ) : ℝ)) /
        Real.sqrt ((v1 : ℝ) / (xs.length : ℝ) + (v2 : ℝ) / (ys.length : ℝ))|) hdof
      have hb2 := hT2 _ (|(((qMean xs : ℚ) : ℝ) - ((qMean ys : ℚ) : ℝ)) /
        Real.sqrt ((v1 : ℝ) / (xs.length : ℝ) + (v2 : ℝ) / (ys.length : ℝ))|) hdof
        (abs_nonneg _)
      constructor <;> linarith
  case _ =>
    exact absurd h (by simp)

/-! ## Inversion lemmas: the p-value field of every returned result -/

theorem binary_ztest_ok_p_value {Phi : ℝ → ℝ} {rows : List Row} {alpha : ℚ}
    {success : Row → Int} {name : String} {res : MetricResult}
    (h : binary_ztest Phi rows alpha success name = Except.ok res) :
    res.p_value = proportions_ztest Phi (successCount rows success "A") (trialCount rows "A")
      (successCount rows success "B") (trialCount rows "B") := by
  simp only [binary_ztest] at h
  split at h
  · rw [Except.ok.injEq] at h
    rw [← h]
  · exact absurd h (by simp)

theorem conversion_rate_ok_p_value {Phi : ℝ → ℝ} {a : Analyzer} {denom : String}
    {res : MetricResult} (h : a.conversion_rate Phi denom = Except.ok res) :
    ∃ rows2, res.p_value =
      proportions_ztest Phi (successCount rows2 Row.converted "A") (trialCount rows2 "A")
        (successCount rows2 Row.converted "B") (trialCount rows2 "B") := by
  simp only [Analyzer.conversion_rate] at h
  split at h
  · exact ⟨_, binary_ztest_ok_p_value h⟩
  · split at h
    · split at h
      · exact absurd h (by simp)
      · rcases hmk : mkAnalyzer
          ⟨a.df.columns, List.filter (fun r => r.clicked == 1) a.df.rows⟩ a.alpha with e | a2
        · rw [hmk] at h
          exact absurd h (by simp [Except.bind])
        · rw [hmk] at h
          simp only [Except.bind] at h
          exact ⟨_, binary_ztest_ok_p_value h⟩
    · exact absurd h (by simp)

theorem revenue_ok_p_value {Tcdf : ℝ → ℝ → ℝ} {a : Analyzer} {res : MetricResult}
    (h : a.revenue_per_impression Tcdf = Except.ok res) :
    res.p_value = ttest_ind_welch Tcdf ((variantRows a.df.rows "A").map Row.revenue)
      ((variantRows a.df.rows "B").map Row.revenue) := by
  simp only [Analyzer.revenue_per_impression] at h
  split at h
  · rw [Except.ok.injEq] at h
    rw [← h]
  · exact absurd h (by simp)

/-! ## Claim C4: p-value range -/

/-- Claim C4 counterexample: on the dataset with A and B present but zero
clicks everywhere, `ctr()` returns a result whose p-value is NaN
(`none` in the embedding) — the z statistic is `0.0 / 0.0` — so the returned
p-value does not lie within [0, 1]. -/
theorem claim_c4_counterexample :
    (Analyzer.ctr halfCdf ⟨dfDegenerate, 5 / 100⟩).toOption.map
      (fun r => r.p_value) = some none := by
  rw [Analyzer.ctr, binary_ztest_eq_ok halfCdf dfDegenerate.rows (5 / 100) Row.clicked
    "click_through_rate" (by decide) (by decide)]
  have h1 : successCount dfDegenerate.rows Row.clicked "A" = 0 := by decide
  have h2 : successCount dfDegenerate.rows Row.clicked "B" = 0 := by decide
  have h3 : trialCount dfDegenerate.rows "A" = 1 := by decide
  have h4 : trialCount dfDegenerate.rows "B" = 1 := by decide
  simp only [Except.toOption, Option.map_some]
  have : proportions_ztest halfCdf (successCount dfDegenerate.rows Row.clicked "A")
      (trialCount dfDegenerate.rows "A") (successCount dfDegenerate.rows Row.clicked "B")
      (trialCount dfDegenerate.rows "B") = none := by
    rw [h1, h2, h3, h4]
    norm_num [proportions_ztest]
  simp [this]

/-- Claim C4, amended: on every dataset on which they return a result, the
three metric computations return a p-value that, whenever it is an actual
number rather than NaN, lies within [0, 1].  The CDFs of the external
statistics libraries are assumed to satisfy their documented properties:
values at nonnegative points lie in [1/2, 1] (for the t CDF, at positive
degrees of freedom). -/
theorem claim_c4_amended (Phi : ℝ → ℝ) (Tcdf : ℝ → ℝ → ℝ)
    (hPhi1 : ∀ x, Phi x ≤ 1) (hPhi2 : ∀ x, 0 ≤ x → 1 / 2 ≤ Phi x)
    (hT1 : ∀ d x, 0 < d → Tcdf d x ≤ 1) (hT2 : ∀ d x, 0 < d → 0 ≤ x → 1 / 2 ≤ Tcdf d x)
    (a : Analyzer) (denom : String) :
    (∀ res p, a.ctr Phi = Except.ok res → res.p_value = some p → 0 ≤ p ∧ p ≤ 1) ∧
    (∀ res p, a.conversion_rate Phi denom = Except.ok res → res.p_value = some p →
      0 ≤ p ∧ p ≤ 1) ∧
    (∀ res p, a.revenue_per_impression Tcdf = Except.ok res → res.p_value = some p →
      0 ≤ p ∧ p ≤ 1) := by
  refine ⟨?_, ?_, ?_⟩
  · intro res p hok hp
    have := binary_ztest_ok_p_value hok
    rw [this] at hp
    exact proportions_ztest_bounds hPhi1 hPhi2 hp
  · intro res p hok hp
    obtain ⟨rows2, hrows2⟩ := conversion_rate_ok_p_value hok
    rw [hrows2] at hp
    exact proportions_ztest_bounds hPhi1 hPhi2 hp
  · intro res p hok hp
    have := revenue_ok_p_value hok
    rw [this] at hp
    exact ttest_ind_welch_bounds hT1 hT2 hp

/-- Claim C5: on every dataset with both variants present whose variant-A
baseline is exactly zero (`rate_a = 0` for the binary metrics, `mean_a = 0`
for revenue per impression), the metric computation does not fail: it
returns a result whose lift is NaN (`none`) while every other field
(name, both variant statistics, p-value, significance flag) is populated by
its normal formula. -/
theorem claim_c5 (Phi : ℝ → ℝ) (Tcdf : ℝ → ℝ → ℝ) (a : Analyzer)
    (hA : hasVariant a.df.rows "A" = true) (hB : hasVariant a.df.rows "B" = true) :
    (binaryRate a.df.rows Row.clicked "A" = 0 →
      ∃ res, a.ctr Phi = Except.ok res ∧ res.lift = none ∧
        res.metric_name = "click_through_rate" ∧
        res.variant_a = binaryRate a.df.rows Row.clicked "A" ∧
        res.variant_b = binaryRate a.df.rows Row.clicked "B" ∧
        res.p_value = proportions_ztest Phi (successCount a.df.rows Row.clicked "A")
          (trialCount a.df.rows "A") (successCount a.df.rows Row.clicked "B")
          (trialCount a.df.rows "B") ∧
        res.significant = pLess res.p_value a.alpha) ∧
    (binaryRate a.df.rows Row.converted "A" = 0 →
      ∃ res, a.conversion_rate Phi "impressions" = Except.ok res ∧ res.lift = none ∧
        res.metric_name = "conversion_rate_per_impression" ∧
        res.variant_a = binaryRate a.df.rows Row.converted "A" ∧
        res.variant_b = binaryRate a.df.rows Row.converted "B" ∧
        res.p_value = proportions_ztest Phi (successCount a.df.rows Row.converted "A")
          (trialCount a.df.rows "A") (successCount a.df.rows Row.converted "B")
          (trialCount a.df.rows "B") ∧
        res.significant = pLess res.p_value a.alpha) ∧
    (qMean ((variantRows a.df.rows "A").map Row.revenue) = 0 →
      ∃ res, a.revenue_per_impression Tcdf = Except.ok res ∧ res.lift = none ∧
        res.metric_name = "revenue_per_impression" ∧
        res.variant_a = qMean ((variantRows a.df.rows "A").map Row.revenue) ∧
        res.variant_b = qMean ((variantRows a.df.rows "B").map Row.revenue) ∧
        res.p_value = ttest_ind_welch Tcdf ((variantRows a.df.rows "A").map Row.revenue)
          ((variantRows a.df.rows "B").map Row.revenue) ∧
        res.significant = pLess res.p_value a.alpha) := by
  refine ⟨?_, ?_, ?_⟩
  · intro h0
    refine ⟨_, binary_ztest_eq_ok Phi a.df.rows a.alpha Row.clicked "click_through_rate" hA hB,
      ?_, rfl, rfl, rfl, rfl, rfl⟩
    simp [h0]
  · intro h0
    refine ⟨_, by
      simpa [Analyzer.conversion_rate] using binary_ztest_eq_ok Phi a.df.rows a.alpha
        Row.converted "conversion_rate_per_impression" hA hB,
      ?_, rfl, rfl, rfl, rfl, rfl⟩
    simp [h0]
  · intro h0
    refine ⟨_, revenue_eq_ok Tcdf a hA hB, ?_, rfl, rfl, rfl, rfl, rfl⟩
    simp [h0]

/-! ## Lemmas about the generator pipeline -/

theorem drawN_length {σ α : Type} (f : σ → α × σ) :
    ∀ (n : Nat) (s : σ), (drawN f n s).1.length = n := by
  intro n
  induction n with
  | zero => intro s; rfl
  | succ m ih => intro s; simp [drawN, ih]

theorem drawEach_length {σ α β : Type} (f : β → σ → α × σ) :
    ∀ (bs : List β) (s : σ), (drawEach f bs s).1.length = bs.length := by
  intro bs
  induction bs with
  | nil => intro s; rfl
  | cons b t ih => intro s; simp [drawEach, ih]

theorem zipRows_map_impression_id :
    ∀ (is us : List Nat) (vs : List String) (cs cvs : List Int) (ws : List ℚ),
      is.length ≤ us.length → is.length ≤ vs.length → is.length ≤ cs.length →
      is.length ≤ cvs.length → is.length ≤ ws.length →
      (zipRows is us vs cs cvs ws).map (fun row => row.impression_id) = is := by
  intro is
  induction is with
  | nil =>
    intro us vs cs cvs ws _ _ _ _ _
    cases us <;> cases vs <;> cases cs <;> cases cvs <;> cases ws <;> simp [zipRows]
  | cons i t ih =>
    intro us vs cs cvs ws h1 h2 h3 h4 h5
    rcases us with _ | ⟨u, us⟩
    · simp at h1
    rcases vs with _ | ⟨v, vs⟩
    · simp at h2
    rcases cs with _ | ⟨c, cs⟩
    · simp at h3
    rcases cvs with _ | ⟨cv, cvs⟩
    · simp at h4
    rcases ws with _ | ⟨w, ws⟩
    · simp at h5
    simp only [zipRows, List.map_cons, List.cons.injEq]
    exact ⟨trivial, ih us vs cs cvs ws (by simpa using h1) (by simpa using h2) (by simpa using h3)
      (by simpa using h4) (by simpa using h5)⟩

theorem mem_zipRows_converted_revenue :
    ∀ (is us : List Nat) (vs : List String) (cs cvs : List Int) (ws : List ℚ) (row : Row),
      row ∈ zipRows is us vs cs cvs ws → (row.converted, row.revenue) ∈ List.zip cvs ws := by
  intro is
  induction is with
  | nil =>
    intro us vs cs cvs ws row hrow
    cases us <;> cases vs <;> cases cs <;> cases cvs <;> cases ws <;> simp [zipRows] at hrow
  | cons i t ih =>
    intro us vs cs cvs ws row hrow
    rcases us with _ | ⟨u, us⟩
    · simp [zipRows] at hrow
    rcases vs with _ | ⟨v, vs⟩
    · simp [zipRows] at hrow
    rcases cs with _ | ⟨c, cs⟩
    · simp [zipRows] at hrow
    rcases cvs with _ | ⟨cv, cvs⟩
    · simp [zipRows] at hrow
    rcases ws with _ | ⟨w, ws⟩
    · simp [zipRows] at hrow
    simp only [zipRows, List.mem_cons] at hrow
    rcases hrow with rfl | hrow
    · simp [List.zip_cons_cons]
    · exact List.mem_cons_of_mem _ (ih us vs cs cvs ws row hrow)

theorem zip_converted_revenue_spec :
    ∀ (cs : List Int) (ws : List ℚ), (∀ x ∈ ws, 0 ≤ x) →
      ∀ p ∈ List.zip cs (List.zipWith (fun cv rv => if cv = 1 then rv else (0 : ℚ)) cs ws),
        0 ≤ p.2 ∧ (p.1 = 0 → p.2 = 0) := by
  intro cs
  induction cs with
  | nil => intro ws _ p hp; simp at hp
  | cons c t ih =>
    intro ws hw p hp
    rcases ws with _ | ⟨w, ws⟩
    · simp at hp
    · simp only [List.zipWith_cons_cons, List.zip_cons_cons, List.mem_cons] at hp
      rcases hp with rfl | hp
      · constructor
        · dsimp only
          split
          · exact hw w (by simp)
          · exact le_refl 0
        · intro h0
          dsimp only at h0 ⊢
          rw [h0]
          norm_num
      · exact ih ws (fun x hx => hw x (by simp [hx])) p hp

theorem generateFromState_spec {σ : Type} (R : Rng σ) (config : AdExperimentConfig) (s : σ) :
    (generateFromState R config s).1.columns = adColumns ∧
    (generateFromState R config s).1.rows.map (fun row => row.impression_id) =
      List.range' 1 config.n_impressions := by
  constructor
  · rfl
  · simp only [generateFromState]
    apply zipRows_map_impression_id <;>
      simp [drawN_length, drawEach_length, List.length_range', List.length_zipWith]

/-! ## Claim theorems for the generator -/

/-- Claim C7: with a configured seed, the generated dataset does not depend
on the ambient random-generator state: two runs from arbitrary prior states
`s1` and `s2` with the same configuration (hence the same seed) produce the
identical dataset, because the generator is re-seeded before any draw. -/
theorem claim_c7 {σ : Type} (R : Rng σ) (config : AdExperimentConfig) (k : Nat)
    (hseed : config.seed = some k) (s1 s2 : σ) :
    (generate_synthetic_data R config s1).1 = (generate_synthetic_data R config s2).1 := by
  unfold generate_synthetic_data
  rw [hseed]

/-- Claim C8: for every positive `n_impressions`, the generated dataset has
exactly `n_impressions` rows, exactly the six specified columns, and an
`impression_id` column equal to the dense increasing sequence
`1, 2, ..., n_impressions` in row order. -/
theorem claim_c8 {σ : Type} (R : Rng σ) (config : AdExperimentConfig) (s : σ)
    (hn : 0 < config.n_impressions) :
    (generate_synthetic_data R config s).1.rows.length = config.n_impressions ∧
    (generate_synthetic_data R config s).1.columns =
      ["impression_id", "user_id", "variant", "clicked", "converted", "revenue"] ∧
    (generate_synthetic_data R config s).1.rows.map (fun row => row.impression_id) =
      List.range' 1 config.n_impressions := by
  unfold generate_synthetic_data
  obtain ⟨hcols, hmap⟩ := generateFromState_spec R config
    (match config.seed with | some k => R.seedFn k | none => s)
  refine ⟨?_, hcols, hmap⟩
  have hlen := congrArg List.length hmap
  simpa using hlen

/-- Claim C9: every row of a generated dataset has nonnegative revenue, and
revenue exactly 0 whenever its `converted` indicator is 0. -/
theorem claim_c9 {σ : Type} (R : Rng σ) (config : AdExperimentConfig) (s : σ) :
    ∀ row ∈ (generate_synthetic_data R config s).1.rows,
      0 ≤ row.revenue ∧ (row.converted = 0 → row.revenue = 0) := by
  intro row hrow
  simp only [generate_synthetic_data, generateFromState] at hrow
  have hz := mem_zipRows_converted_revenue _ _ _ _ _ _ _ hrow
  refine zip_converted_revenue_spec _ _ ?_ _ hz
  intro x hx
  rw [List.mem_map] at hx
  obtain ⟨y, _, rfl⟩ := hx
  exact le_max_left 0 y

/-! ## Witnesses: the claim theorems applied at concrete inputs -/

set_option maxRecDepth 40000 in
theorem claim_c1_witness :
    hasVariant exampleDf.rows "A" = true ∧ hasVariant exampleDf.rows "B" = true ∧
    (∃ res, Analyzer.ctr halfCdf ⟨exampleDf, 5 / 100⟩ = Except.ok res ∧
      res.variant_a = 1 / 5 ∧ res.variant_b = 1 / 2 ∧ res.lift = some (3 / 2)) := by
  obtain ⟨⟨res, hok, hva, hvb, _, _, _, _, hlift⟩, _⟩ :=
    claim_c1 halfCdf ⟨exampleDf, 5 / 100⟩ (by decide) (by decide) (by decide) (by decide)
  dsimp only at hva hvb
  have hs1 : successCount exampleDf.rows Row.clicked "A" = 20 := by decide
  have ht1 : trialCount exampleDf.rows "A" = 100 := by decide
  have hs2 : successCount exampleDf.rows Row.clicked "B" = 50 := by decide
  have ht2 : trialCount exampleDf.rows "B" = 100 := by decide
  have hva5 : res.variant_a = 1 / 5 := by rw [hva, hs1, ht1]; norm_num
  have hvb2 : res.variant_b = 1 / 2 := by rw [hvb, hs2, ht2]; norm_num
  have hl : res.lift = some (3 / 2) := by
    rw [hlift (by rw [hva5]; norm_num), hva5, hvb2]
    norm_num
  exact ⟨by decide, by decide, res, hok, hva5, hvb2, hl⟩

theorem claim_c2_witness :
    hasVariant dfOnlyA.rows "B" = false ∧
    Analyzer.ctr halfCdf ⟨dfOnlyA, 5 / 100⟩ =
      Except.error AnalysisError.missingVariantError ∧
    Analyzer.conversion_rate halfCdf ⟨dfOnlyA, 5 / 100⟩ "impressions" =
      Except.error AnalysisError.missingVariantError ∧
    Analyzer.revenue_per_impression halfCdf2 ⟨dfOnlyA, 5 / 100⟩ =
      Except.error AnalysisError.missingVariantError := by
  obtain ⟨h1, h2, h3⟩ :=
    claim_c2 halfCdf halfCdf2 ⟨dfOnlyA, 5 / 100⟩ (Or.inr (by decide))
  exact ⟨by decide, h1, h2, h3⟩

theorem claim_c3_witness :
    ("revenue" ∉ dfMissingRevenue.columns ∧
      ∀ c ∈ requiredCols, c ≠ "revenue" → c ∈ dfMissingRevenue.columns) ∧
    mkAnalyzer dfMissingRevenue (5 / 100) =
      Except.error (AnalysisError.schemaError ["revenue"]) ∧
    (∀ c ∈ requiredCols, c ∈ dfDegenerate.columns) ∧
    mkAnalyzer dfDegenerate (5 / 100) = Except.ok ⟨dfDegenerate, 5 / 100⟩ := by
  refine ⟨⟨by decide, by decide⟩, ?_, by decide, ?_⟩
  · exact (claim_c3 dfMissingRevenue (5 / 100)).2.1 ⟨by decide, by decide⟩
  · exact (claim_c3 dfDegenerate (5 / 100)).2.2 (by decide)

theorem claim_c4_amended_witness :
    (∀ x, halfCdf x ≤ 1) ∧ (∀ x, 0 ≤ x → 1 / 2 ≤ halfCdf x) ∧
    (∀ d x, 0 < d → halfCdf2 d x ≤ 1) ∧ (∀ d x, 0 < d → 0 ≤ x → 1 / 2 ≤ halfCdf2 d x) ∧
    (∀ res p, Analyzer.ctr halfCdf ⟨dfClicks, 5 / 100⟩ = Except.ok res →
      res.p_value = some p → 0 ≤ p ∧ p ≤ 1) ∧
    (∀ res p, Analyzer.conversion_rate halfCdf ⟨dfClicks, 5 / 100⟩ "impressions" =
      Except.ok res → res.p_value = some p → 0 ≤ p ∧ p ≤ 1) ∧
    (∀ res p, Analyzer.revenue_per_impression halfCdf2 ⟨dfClicks, 5 / 100⟩ = Except.ok res →
      res.p_value = some p → 0 ≤ p ∧ p ≤ 1) := by
  have hPhi1 : ∀ x, halfCdf x ≤ 1 := fun _ => by norm_num [halfCdf]
  have hPhi2 : ∀ x, 0 ≤ x → 1 / 2 ≤ halfCdf x := fun _ _ => by norm_num [halfCdf]
  have hT1 : ∀ d x, 0 < d → halfCdf2 d x ≤ 1 := fun _ _ _ => by norm_num [halfCdf2]
  have hT2 : ∀ d x, 0 < d → 0 ≤ x → 1 / 2 ≤ halfCdf2 d x := fun _ _ _ _ => by
    norm_num [halfCdf2]
  obtain ⟨g1, g2, g3⟩ := claim_c4_amended halfCdf halfCdf2 hPhi1 hPhi2 hT1 hT2
    ⟨dfClicks, 5 / 100⟩ "impressions"
  exact ⟨hPhi1, hPhi2, hT1, hT2, g1, g2, g3⟩

theorem claim_c5_witness :
    hasVariant dfDegenerate.rows "A" = true ∧ hasVariant dfDegenerate.rows "B" = true ∧
    binaryRate dfDegenerate.rows Row.clicked "A" = 0 ∧
    qMean ((variantRows dfDegenerate.rows "A").map Row.revenue) = 0 ∧
    (∃ res, Analyzer.ctr halfCdf ⟨dfDegenerate, 5 / 100⟩ = Except.ok res ∧
      res.lift = none) ∧
    (∃ res, Analyzer.revenue_per_impression halfCdf2 ⟨dfDegenerate, 5 / 100⟩ =
      Except.ok res ∧ res.lift = none) := by
  have hs : successCount dfDegenerate.rows Row.clicked "A" = 0 := by decide
  have ht : trialCount dfDegenerate.rows "A" = 1 := by decide
  have hr0 : binaryRate dfDegenerate.rows Row.clicked "A" = 0 := by
    unfold binaryRate
    rw [hs, ht]
    norm_num
  have hmapA : (variantRows dfDegenerate.rows "A").map Row.revenue = [0] := by decide
  have hq0 : qMean ((variantRows dfDegenerate.rows "A").map Row.revenue) = 0 := by
    rw [hmapA]
    norm_num [qMean]
  obtain ⟨h1, _, h3⟩ :=
    claim_c5 halfCdf halfCdf2 ⟨dfDegenerate, 5 / 100⟩ (by decide) (by decide)
  obtain ⟨res1, hok1, hl1, _⟩ := h1 hr0
  obtain ⟨res3, hok3, hl3, _⟩ := h3 hq0
  exact ⟨by decide, by decide, hr0, hq0, ⟨res1, hok1, hl1⟩, ⟨res3, hok3, hl3⟩⟩

theorem claim_c6_witness :
    missingCols dfDegenerate = [] ∧ missingCols dfClicks = [] ∧
    dfDegenerate.rows.filter (fun r => r.clicked == 1) = [] ∧
    dfClicks.rows.filter (fun r => r.clicked == 1) ≠ [] ∧
    Analyzer.conversion_rate halfCdf ⟨dfDegenerate, 5 / 100⟩ "clicks" =
      Except.error AnalysisError.noClicksError ∧
    Analyzer.conversion_rate halfCdf ⟨dfClicks, 5 / 100⟩ "clicks" =
      binary_ztest halfCdf (dfClicks.rows.filter (fun r => r.clicked == 1)) (5 / 100)
        Row.converted "conversion_rate_per_click" := by
  refine ⟨by decide, by decide, by decide, by decide, ?_, ?_⟩
  · exact (claim_c6 halfCdf ⟨dfDegenerate, 5 / 100⟩ (by decide)).1 (by decide)
  · exact (claim_c6 halfCdf ⟨dfClicks, 5 / 100⟩ (by decide)).2 (by decide)

theorem claim_c7_witness :
    tinyConfig.seed = some 3 ∧
    (generate_synthetic_data tinyRng tinyConfig 0).1 =
      (generate_synthetic_data tinyRng tinyConfig 5).1 :=
  ⟨rfl, claim_c7 tinyRng tinyConfig 3 rfl 0 5⟩

theorem claim_c8_witness :
    0 < tinyConfig.n_impressions ∧
    (generate_synthetic_data tinyRng tinyConfig 0).1.rows.length =
      tinyConfig.n_impressions ∧
    (generate_synthetic_data tinyRng tinyConfig 0).1.columns =
      ["impression_id", "user_id", "variant", "clicked", "converted", "revenue"] ∧
    (generate_synthetic_data tinyRng tinyConfig 0).1.rows.map
      (fun row => row.impression_id) = List.range' 1 tinyConfig.n_impressions :=
  ⟨by decide, claim_c8 tinyRng tinyConfig 0 (by decide)⟩

theorem claim_c9_witness :
    (⟨1, 5, "B", 0, 0, 0⟩ : Row) ∈ (generate_synthetic_data tinyRng tinyConfig 0).1.rows ∧
    (0 : ℚ) ≤ (⟨1, 5, "B", 0, 0, 0⟩ : Row).revenue ∧
    ((⟨1, 5, "B", 0, 0, 0⟩ : Row).converted = 0 →
      (⟨1, 5, "B", 0, 0, 0⟩ : Row).revenue = 0) := by
  have hmem : (⟨1, 5, "B", 0, 0, 0⟩ : Row) ∈
      (generate_synthetic_data tinyRng tinyConfig 0).1.rows := by decide
  exact ⟨hmem, (claim_c9 tinyRng tinyConfig 0 _ hmem).1,
    (claim_c9 tinyRng tinyConfig 0 _ hmem).2⟩

theorem claim_c10_witness :
    hasVariant dfOneSide.rows "A" = true ∧ hasVariant dfOneSide.rows "B" = true ∧
    dfOneSide.rows.filter (fun r => r.clicked == 1) ≠ [] ∧
    (∀ r ∈ dfOneSide.rows.filter (fun r => r.clicked == 1), r.variant = "A") ∧
    Analyzer.conversion_rate halfCdf ⟨dfOneSide, 5 / 100⟩ "clicks" =
      Except.error AnalysisError.missingVariantError :=
  ⟨by decide, by decide, by decide, by decide,
    claim_c10 halfCdf ⟨dfOneSide, 5 / 100⟩ (by decide) (by decide) (by decide)
      (by decide) "A" (by decide)⟩

end AbTest
